import Mathlib

/-!
Shallow embedding of the libjs-test262 runner (src/main.cpp) and its
host-defined objects (src/$262Object.cpp, src/AgentObject.cpp,
src/GlobalObject.cpp, src/IsHTMLDDA.cpp), with theorems checking the
spec's claims about them.

Modelling conventions:
- JS values are the inductive `JSValue`; the engine's internal "empty"
  Value (default-constructed JS::Value) is the constructor `JSValue.empty`
  and is never the result of `vm.argument(i)`.
- Numbers keep only the structure that `same_value` observes: NaN is
  self-equal, positive and negative zero are distinct.
- The external collaborators (LibJS parser, interpreter, ArrayBuffer
  class, the OS clock and pipe) are modelled at the boundary the spec
  gives them; everything under src/ is translated directly.
-/

namespace Test262

/-- A JS number, as far as `same_value` distinguishes values: NaN is one
value equal to itself, the two zeros are distinct, other finite values
are modelled by integers (sufficient for every claim). -/
inductive JSNumber where
  | nan
  | posZero
  | negZero
  | int (i : Int)
deriving DecidableEq

/-- A LibJS `JS::Value`. `empty` is the engine-internal empty value
(`Value()`); `object id` identifies a heap object by identity. -/
inductive JSValue where
  | empty
  | undefined
  | null
  | bool (b : Bool)
  | number (n : JSNumber)
  | string (s : String)
  | object (id : Nat)
deriving DecidableEq

/-- `JS::same_value` on numbers: NaN is self-equal, `+0` and `-0` are
not equal to each other (ECMA SameValue, as LibJS implements it). -/
def JSNumber.sameValueNumber : JSNumber → JSNumber → Bool
  | .nan, .nan => true
  | .posZero, .posZero => true
  | .negZero, .negZero => true
  | .int a, .int b => a == b
  | _, _ => false

/-- `JS::same_value`: false across different value types, SameValue
semantics on numbers, identity on objects. -/
def same_value : JSValue → JSValue → Bool
  | .empty, .empty => true
  | .undefined, .undefined => true
  | .null, .null => true
  | .bool a, .bool b => a == b
  | .number a, .number b => a.sameValueNumber b
  | .string a, .string b => a == b
  | .object a, .object b => a == b
  | _, _ => false

/-- `vm.argument(i)`: the i-th actual argument, or undefined when the
call passed fewer than i+1 arguments. -/
def vm_argument (args : List JSValue) (i : Nat) : JSValue :=
  args.getD i JSValue.undefined

theorem same_value_refl (v : JSValue) : same_value v v = true := by
  cases v with
  | bool b => simp [same_value]
  | number n => cases n <;> simp [same_value, JSNumber.sameValueNumber]
  | string s => simp [same_value]
  | object i => simp [same_value]
  | _ => rfl

theorem same_value_empty_left (v : JSValue) (h : v ≠ JSValue.empty) :
    same_value JSValue.empty v = false := by
  cases v with
  | empty => exact absurd rfl h
  | _ => rfl

/-- Modelled from the spec: the buffer-like object (`JS::ArrayBuffer`,
external LibJS code, not part of this repository) "has a detach key and
a detached flag" (§3). Its detach key is read by `detach_key()` and the
one-way transition is `detach_buffer()`. -/
structure ArrayBuffer where
  detach_key : JSValue
  detached : Bool
deriving DecidableEq

/-- Modelled from the spec: `detach_buffer()` marks the buffer detached
and clears its stored detach key — §4.1 requires that after a successful
detach "the `same_value` check against an already-cleared key still must
not succeed", so the cleared key is the engine-internal empty value,
which `same_value` never matches against an argument value. -/
def ArrayBuffer.detach_buffer (_ : ArrayBuffer) : ArrayBuffer :=
  ⟨JSValue.empty, true⟩

/-- Outcome of `$262Object::detach_array_buffer`: either a thrown
TypeError, or the updated buffer together with the returned value. -/
inductive DetachOutcome where
  | typeError
  | ok (buffer : ArrayBuffer) (ret : JSValue)
deriving DecidableEq

/-- `$262Object::detach_array_buffer` ($262Object.cpp lines 65-75).
`argument0` is `vm.argument(0)` resolved against the heap: `none` when
the value is not an object or not a `JS::ArrayBuffer`; `argument1` is
`vm.argument(1)`. Throws a TypeError unless `same_value` matches the
stored detach key, else detaches and returns `js_null()`. -/
def detach_array_buffer (argument0 : Option ArrayBuffer) (argument1 : JSValue) :
    DetachOutcome :=
  match argument0 with
  | none => DetachOutcome.typeError
  | some b =>
    if same_value b.detach_key argument1 then
      DetachOutcome.ok b.detach_buffer JSValue.null
    else
      DetachOutcome.typeError

/-- `vm.argument(0).is_string() && vm.argument(0).as_string().string().is_empty()`
(IsHTMLDDA.cpp line 21). -/
def is_empty_string : JSValue → Bool
  | .string s => s.isEmpty
  | _ => false

/-- `IsHTMLDDA::call` (IsHTMLDDA.cpp lines 16-28): zero arguments gives
null; a first argument that is the empty string gives null; anything
else gives `js_undefined()`. The argument count is only compared with
zero — a call with an empty-string first argument and further arguments
still takes the second branch. -/
def IsHTMLDDA_call (args : List JSValue) : JSValue :=
  if args.length == 0 then JSValue.null
  else if is_empty_string (vm_argument args 0) then JSValue.null
  else JSValue.undefined

/-- The OS wall clock as `AgentObject::monotonic_now` reads it
(AgentObject.cpp lines 30-35): `std::chrono::system_clock` readings, in
milliseconds since the epoch, indexed by call number. The C++ standard
gives `system_clock` no monotonicity guarantee (it follows the adjustable
wall clock), so every integer trace is an admissible clock. -/
structure SystemClock where
  millis : Nat → Int

/-- `AgentObject::monotonic_now`: returns the current `system_clock`
reading, cast to milliseconds, as a JS number. -/
def monotonic_now (clock : SystemClock) (callIndex : Nat) : JSValue :=
  JSValue.number (JSNumber.int (clock.millis callIndex))

/-- `INT_MIN` for the 32-bit `int` of `milliseconds * 1000`. -/
def INT32_MIN : Int := -(2 ^ 31)

/-- `INT_MAX` for the 32-bit `int` of `milliseconds * 1000`. -/
def INT32_MAX : Int := 2 ^ 31 - 1

/-- The microsecond count `AgentObject::sleep` (AgentObject.cpp lines
37-42) hands to `::usleep`: `milliseconds` is the argument already
coerced by `to_i32`, the product `milliseconds * 1000` is computed in a
signed 32-bit `int` (overflow would be undefined behaviour, modelled as
`none`), and the implicit conversion to the unsigned 32-bit `useconds_t`
parameter reduces it modulo `2^32`. -/
def sleep_usleep_microseconds (milliseconds : Int) : Option Nat :=
  if INT32_MIN ≤ milliseconds * 1000 ∧ milliseconds * 1000 ≤ INT32_MAX then
    some ((milliseconds * 1000 % 2 ^ 32).toNat)
  else
    none

/-- `AgentObject::sleep` after argument coercion: the blocking duration
in microseconds paired with the returned value `js_undefined()`. -/
def AgentObject_sleep (milliseconds : Int) : Option (Nat × JSValue) :=
  (sleep_usleep_microseconds milliseconds).map (fun d => (d, JSValue.undefined))

/-- `GlobalObject::print` (GlobalObject.cpp lines 33-38), given the
already-coerced argument string: `outln("{}", string)` appends the
string's bytes and one newline to whatever the captured stream already
holds, and the function returns `js_undefined()`. Bytes are modelled as
characters. -/
def GlobalObject_print (captured : List Char) (argumentString : String) :
    List Char × JSValue :=
  (captured ++ (argumentString.data ++ ['\n']), JSValue.undefined)

/-- The captured stream after a sequence of successful `print` calls,
starting from an empty capture. -/
def capture_after_prints (calls : List String) : List Char :=
  calls.foldl (fun acc s => (GlobalObject_print acc s).1) []

/-- The JSON error object the three failure paths of main.cpp build:
`phase`, `type` and `details` fields, each possibly absent. -/
structure DiagnosticError where
  phase : Option String
  type : Option String
  details : Option String
deriving DecidableEq

/-- The error object `read_file` builds on an open failure (main.cpp
lines 35-37): only `details` is set; no `phase`, no `type`. -/
def io_error_object (details : String) : DiagnosticError :=
  ⟨none, none, some details⟩

/-- The error object `parse_program` builds (main.cpp lines 48-52):
`phase` is "parse", `type` is "SyntaxError", `details` is the first
parser diagnostic's message. -/
def parse_error_object (details : String) : DiagnosticError :=
  ⟨some "parse", some "SyntaxError", some details⟩

/-- The error object `run_program` builds for an uncaught exception
(main.cpp lines 69-97): `phase` is "runtime"; `type` is always set in
the end (from the thrown object's `name`, its constructor's `name`, or
the fallback `to_string_without_side_effects` at lines 95-96 — the
classification internals are abstracted into the `type` parameter, no
claim depends on them); `details` is set only when the thrown object has
an own non-accessor `message`. -/
def runtime_error_object (type : String) (details : Option String) :
    DiagnosticError :=
  ⟨some "runtime", some type, details⟩

/-- Result of `run_script` for one source: success, or one of the three
error objects. -/
inductive ScriptResult where
  | ok
  | err (e : DiagnosticError)
deriving DecidableEq

/-- The `result_object` main.cpp emits: its four possible top-level
fields, each possibly absent. `output` is the captured byte string. -/
structure ResultObject where
  harness_error : Option Bool
  harness_file : Option String
  error : Option DiagnosticError
  output : Option (List Char)
deriving DecidableEq

/-- The top-level keys present on the emitted JSON record. -/
def ResultObject.keys (r : ResultObject) : List String :=
  (if r.harness_error.isSome then ["harness_error"] else []) ++
  (if r.harness_file.isSome then ["harness_file"] else []) ++
  (if r.error.isSome then ["error"] else []) ++
  (if r.output.isSome then ["output"] else [])

/-- The capture buffer's size: `constexpr auto BUFFER_SIZE = 1 * KiB`
(main.cpp line 131). -/
def BUFFER_SIZE : Nat := 1024

/-- The single non-blocking `read` that drains the capture pipe
(main.cpp line 189): the pipe's read end is `O_NONBLOCK`, so an empty
pipe yields `-1` (EAGAIN); otherwise the read returns at most
`BUFFER_SIZE` of the pending bytes. `pipeData` is everything written to
the captured stdout during the run. -/
def read_capture (pipeData : List Char) : Int × List Char :=
  if pipeData.length = 0 then (-1, [])
  else (Int.ofNat (min pipeData.length BUFFER_SIZE), pipeData.take BUFFER_SIZE)

/-- `if (nread > 0) result_object.set("output", ...)` (main.cpp lines
199-200): the `output` field is present exactly when the read returned
at least one byte. -/
def output_field (readResult : Int × List Char) : Option (List Char) :=
  if 0 < readResult.1 then some readResult.2 else none

/-- The harness loop of main.cpp lines 173-181: run each harness file in
order; on the first failure stop (`break`). Returns the list of harness
files actually executed and, when one failed, its path and error. -/
def harness_loop (runScript : String → ScriptResult) :
    List String → List String × Option (String × DiagnosticError)
  | [] => ([], none)
  | p :: rest =>
    match runScript p with
    | ScriptResult.ok =>
      let r := harness_loop runScript rest
      (p :: r.1, r.2)
    | ScriptResult.err e => ([p], some (p, e))

/-- What one invocation of the runner did: which harness files were
executed, whether the main (stdin) source was executed, and the emitted
report. -/
structure RunnerTrace where
  executed_harness : List String
  main_executed : Bool
  report : ResultObject
deriving DecidableEq

/-- main.cpp lines 171-202: run the harness files until the first
failure; if one failed, set `harness_error`, `harness_file` and `error`
and skip the main source; otherwise run the main source and set `error`
on failure; finally drain the capture pipe into `output`. `runScript`
gives each harness file's outcome, `runMain` the main source's, and
`pipeData` is what the run wrote to the captured stdout. -/
def runner_main (runScript : String → ScriptResult) (runMain : ScriptResult)
    (harness_files : List String) (pipeData : List Char) : RunnerTrace :=
  let h := harness_loop runScript harness_files
  let out := output_field (read_capture pipeData)
  match h.2 with
  | some pe => ⟨h.1, false, ⟨some true, some pe.1, some pe.2, out⟩⟩
  | none =>
    match runMain with
    | ScriptResult.ok => ⟨h.1, true, ⟨none, none, none, out⟩⟩
    | ScriptResult.err e => ⟨h.1, true, ⟨none, none, some e, out⟩⟩

/-- An error object is one the three failure paths of main.cpp can
build. -/
def ValidError (e : DiagnosticError) : Prop :=
  (∃ d, e = io_error_object d) ∨ (∃ d, e = parse_error_object d) ∨
  (∃ t d, e = runtime_error_object t d)

/-- C3: for every buffer-like object `b` with detach key `k` (a language
value, so not the engine-internal empty value), `detachArrayBuffer(b, k)`
succeeds exactly once — the first call detaches `b` and returns null,
and a second call on the detached buffer with the same `k` throws a
TypeError, since the `same_value` check against the cleared key cannot
succeed. -/
theorem detachArrayBuffer_succeeds_exactly_once (b : ArrayBuffer) (k : JSValue)
    (hkey : b.detach_key = k) (hk : k ≠ JSValue.empty) :
    ∃ b', detach_array_buffer (some b) k = DetachOutcome.ok b' JSValue.null ∧
      b'.detached = true ∧
      detach_array_buffer (some b') k = DetachOutcome.typeError := by
  refine ⟨b.detach_buffer, ?_, rfl, ?_⟩
  · simp [detach_array_buffer, hkey, same_value_refl]
  · simp [detach_array_buffer, ArrayBuffer.detach_buffer,
      same_value_empty_left k hk]

/-- C3 witness: a concrete buffer with detach key undefined. -/
theorem detachArrayBuffer_succeeds_exactly_once_witness :
    ∃ b', detach_array_buffer (some ⟨JSValue.undefined, false⟩) JSValue.undefined =
        DetachOutcome.ok b' JSValue.null ∧
      b'.detached = true ∧
      detach_array_buffer (some b') JSValue.undefined = DetachOutcome.typeError :=
  detachArrayBuffer_succeeds_exactly_once ⟨JSValue.undefined, false⟩
    JSValue.undefined rfl (by decide)

/-- C8: for a non-detached buffer whose stored detach key is undefined,
`detachArrayBuffer(b)` with the key argument omitted succeeds: the
missing second argument reads as undefined, `same_value` of undefined
with undefined holds, so the buffer is detached and null is returned. -/
theorem detachArrayBuffer_omitted_key_succeeds (b : ArrayBuffer) (arg0 : JSValue)
    (hkey : b.detach_key = JSValue.undefined) (_hnd : b.detached = false) :
    vm_argument [arg0] 1 = JSValue.undefined ∧
    same_value JSValue.undefined JSValue.undefined = true ∧
    detach_array_buffer (some b) (vm_argument [arg0] 1) =
      DetachOutcome.ok b.detach_buffer JSValue.null ∧
    b.detach_buffer.detached = true := by
  refine ⟨rfl, rfl, ?_, rfl⟩
  simp [detach_array_buffer, vm_argument, hkey, same_value]

/-- C8 witness: a concrete non-detached buffer with key undefined,
called with the buffer as the only argument. -/
theorem detachArrayBuffer_omitted_key_succeeds_witness :
    vm_argument [JSValue.object 0] 1 = JSValue.undefined ∧
    same_value JSValue.undefined JSValue.undefined = true ∧
    detach_array_buffer (some ⟨JSValue.undefined, false⟩) (vm_argument [JSValue.object 0] 1) =
      DetachOutcome.ok (ArrayBuffer.detach_buffer ⟨JSValue.undefined, false⟩) JSValue.null ∧
    (ArrayBuffer.detach_buffer ⟨JSValue.undefined, false⟩).detached = true :=
  detachArrayBuffer_omitted_key_succeeds ⟨JSValue.undefined, false⟩
    (JSValue.object 0) rfl rfl

/-- C4 counterexample: calling the IsHTMLDDA object with an empty-string
first argument and an additional argument returns null, not the no-value
sentinel the claim requires for that argument shape. -/
theorem IsHTMLDDA_extra_arguments_counterexample :
    IsHTMLDDA_call [JSValue.string "", JSValue.bool true] = JSValue.null ∧
    IsHTMLDDA_call [JSValue.string "", JSValue.bool true] ≠ JSValue.undefined := by
  decide

/-- C4 amended: every call of the IsHTMLDDA object returns null or
undefined, and it returns null exactly when it is called with zero
arguments or with a first argument that is the empty string — whatever
further arguments are passed; every other argument shape returns the
no-value sentinel. -/
theorem IsHTMLDDA_call_characterization (args : List JSValue) :
    (IsHTMLDDA_call args = JSValue.null ∨ IsHTMLDDA_call args = JSValue.undefined) ∧
    (IsHTMLDDA_call args = JSValue.null ↔
      args = [] ∨ ∃ rest, args = JSValue.string "" :: rest) := by
  constructor
  · unfold IsHTMLDDA_call
    split
    · exact Or.inl rfl
    split
    · exact Or.inl rfl
    · exact Or.inr rfl
  · cases args with
    | nil => simp [IsHTMLDDA_call]
    | cons hd tl =>
      have hv : vm_argument (hd :: tl) 0 = hd := rfl
      cases hd with
      | string s =>
        by_cases hs : s = ""
        · subst hs
          simp [IsHTMLDDA_call, is_empty_string, hv]
          decide
        · simp [IsHTMLDDA_call, is_empty_string, hv, hs, String.isEmpty_iff]
      | empty => simp [IsHTMLDDA_call, is_empty_string, hv]
      | undefined => simp [IsHTMLDDA_call, is_empty_string, hv]
      | null => simp [IsHTMLDDA_call, is_empty_string, hv]
      | bool b => simp [IsHTMLDDA_call, is_empty_string, hv]
      | number n => simp [IsHTMLDDA_call, is_empty_string, hv]
      | object i => simp [IsHTMLDDA_call, is_empty_string, hv]

/-- C5: `monotonic_now` reads `std::chrono::system_clock`, the
adjustable wall clock, which carries no monotonicity guarantee — on the
admissible clock trace that reads 5 ms and then 3 ms (a wall-clock step
backwards between the calls), the second returned value is below the
first, contradicting the claimed never-decreasing behaviour. -/
theorem monotonic_now_can_go_backwards :
    monotonic_now ⟨fun n => if n = 0 then 5 else 3⟩ 0 =
      JSValue.number (JSNumber.int 5) ∧
    monotonic_now ⟨fun n => if n = 0 then 5 else 3⟩ 1 =
      JSValue.number (JSNumber.int 3) ∧
    (3 : Int) < 5 := by
  refine ⟨rfl, rfl, by norm_num⟩

/-- C6 counterexample: a coerced argument of -1 is not a no-op — the
product -1000 converts to the unsigned `useconds_t` 4294966296, so
`usleep` is asked to block for about 71 minutes. -/
theorem sleep_negative_one_counterexample :
    AgentObject_sleep (-1) = some (4294966296, JSValue.undefined) ∧
    (4294966296 : Nat) ≠ 0 := by
  decide

/-- C6 amended: the argument is coerced to a 32-bit integer and
`usleep` receives `milliseconds * 1000` converted to an unsigned 32-bit
microsecond count (when the product fits in `int`; otherwise the signed
multiplication is undefined behaviour); a coerced value of zero is a
no-op, but a negative coerced value wraps to at least 2^31 microseconds
of blocking rather than being a no-op, and the call returns the
no-value sentinel. -/
theorem sleep_duration_characterization (ms : Int)
    (h1 : INT32_MIN ≤ ms * 1000) (h2 : ms * 1000 ≤ INT32_MAX) :
    AgentObject_sleep ms = some ((ms * 1000 % 2 ^ 32).toNat, JSValue.undefined) ∧
    (ms = 0 → AgentObject_sleep ms = some (0, JSValue.undefined)) ∧
    (0 ≤ ms → (ms * 1000 % 2 ^ 32).toNat = (ms * 1000).toNat) ∧
    (ms < 0 → 2 ^ 31 ≤ (ms * 1000 % 2 ^ 32).toNat) := by
  have h31 : ((2 : Int) ^ 31 : Int) = 2147483648 := by norm_num
  have h32 : ((2 : Int) ^ 32 : Int) = 4294967296 := by norm_num
  have hmin : INT32_MIN = -2147483648 := by norm_num [INT32_MIN]
  have hmax : INT32_MAX = 2147483647 := by norm_num [INT32_MAX]
  rw [hmin] at h1
  rw [hmax] at h2
  refine ⟨?_, ?_, ?_, ?_⟩
  · unfold AgentObject_sleep sleep_usleep_microseconds
    rw [if_pos ⟨by rw [hmin]; exact h1, by rw [hmax]; exact h2⟩]
    rfl
  · intro h0
    subst h0
    decide
  · intro hpos
    have : ms * 1000 % 2 ^ 32 = ms * 1000 := by
      rw [h32]
      omega
    rw [this]
  · intro hneg
    have hlt : ms * 1000 < 0 := by
      have : ms ≤ -1 := by omega
      nlinarith
    have hmod : ms * 1000 % (2 ^ 32) = ms * 1000 + 2 ^ 32 := by
      rw [h32]
      omega
    have hn31 : (2 ^ 31 : ℕ) = 2147483648 := by norm_num
    rw [hmod, h32, hn31]
    omega

theorem harness_loop_append_fail (runScript : String → ScriptResult)
    (pre : List String) (p : String) (post : List String) (e : DiagnosticError)
    (hpre : ∀ q ∈ pre, runScript q = ScriptResult.ok)
    (hp : runScript p = ScriptResult.err e) :
    harness_loop runScript (pre ++ p :: post) = (pre ++ [p], some (p, e)) := by
  induction pre with
  | nil => simp [harness_loop, hp]
  | cons q rest ih =>
    have hq : runScript q = ScriptResult.ok := hpre q (by simp)
    have hr := ih (fun x hx => hpre x (by simp [hx]))
    simp [harness_loop, hq, hr]

theorem harness_loop_err_source (runScript : String → ScriptResult)
    (paths : List String) (p : String) (e : DiagnosticError)
    (h : (harness_loop runScript paths).2 = some (p, e)) :
    runScript p = ScriptResult.err e := by
  induction paths with
  | nil => simp [harness_loop] at h
  | cons q rest ih =>
    rcases hq : runScript q with _ | e'
    · exact ih (by simpa [harness_loop, hq] using h)
    · have := by simpa [harness_loop, hq] using h
      obtain ⟨h1, h2⟩ := this
      subst h1
      subst h2
      exact hq

theorem runner_main_output (runScript : String → ScriptResult)
    (runMain : ScriptResult) (paths : List String) (pipeData : List Char) :
    (runner_main runScript runMain paths pipeData).report.output =
      output_field (read_capture pipeData) := by
  rcases hl : harness_loop runScript paths with ⟨ex, herr⟩
  rcases herr with _ | pe
  · cases runMain <;> simp [runner_main, hl]
  · simp [runner_main, hl]

theorem result_keys_subset (r : ResultObject) :
    ∀ k ∈ r.keys, k = "harness_error" ∨ k = "harness_file" ∨
      k = "error" ∨ k = "output" := by
  intro k hk
  unfold ResultObject.keys at hk
  split_ifs at hk <;> simp_all <;> tauto

theorem validError_phase (e : DiagnosticError) (h : ValidError e) :
    e.phase = none ∨ e.phase = some "parse" ∨ e.phase = some "runtime" := by
  rcases h with ⟨d, rfl⟩ | ⟨d, rfl⟩ | ⟨t, d, rfl⟩ <;>
    simp [io_error_object, parse_error_object, runtime_error_object]

/-- C7: when a harness file fails after a prefix of successful ones, the
executed harness files are exactly that prefix and the failing file, the
main source is never executed, and the report records `harness_error`
true, `harness_file` equal to the first failing file's path, and that
file's error. -/
theorem harness_failure_short_circuits (runScript : String → ScriptResult)
    (runMain : ScriptResult) (pre : List String) (p : String)
    (post : List String) (pipeData : List Char) (e : DiagnosticError)
    (hpre : ∀ q ∈ pre, runScript q = ScriptResult.ok)
    (hp : runScript p = ScriptResult.err e) :
    (runner_main runScript runMain (pre ++ p :: post) pipeData).executed_harness =
      pre ++ [p] ∧
    (runner_main runScript runMain (pre ++ p :: post) pipeData).main_executed =
      false ∧
    (runner_main runScript runMain (pre ++ p :: post) pipeData).report.harness_error =
      some true ∧
    (runner_main runScript runMain (pre ++ p :: post) pipeData).report.harness_file =
      some p ∧
    (runner_main runScript runMain (pre ++ p :: post) pipeData).report.error =
      some e := by
  have hl := harness_loop_append_fail runScript pre p post e hpre hp
  simp [runner_main, hl]

/-- C7 witness: two harness files where the second fails; the third and
the main source are skipped. -/
theorem harness_failure_short_circuits_witness :
    (runner_main
      (fun q => if q = "h2" then ScriptResult.err (parse_error_object "boom")
        else ScriptResult.ok)
      ScriptResult.ok (["h1"] ++ "h2" :: ["h3"]) ['a']).executed_harness =
      ["h1"] ++ ["h2"] ∧
    (runner_main
      (fun q => if q = "h2" then ScriptResult.err (parse_error_object "boom")
        else ScriptResult.ok)
      ScriptResult.ok (["h1"] ++ "h2" :: ["h3"]) ['a']).main_executed = false ∧
    (runner_main
      (fun q => if q = "h2" then ScriptResult.err (parse_error_object "boom")
        else ScriptResult.ok)
      ScriptResult.ok (["h1"] ++ "h2" :: ["h3"]) ['a']).report.harness_error =
      some true ∧
    (runner_main
      (fun q => if q = "h2" then ScriptResult.err (parse_error_object "boom")
        else ScriptResult.ok)
      ScriptResult.ok (["h1"] ++ "h2" :: ["h3"]) ['a']).report.harness_file =
      some "h2" ∧
    (runner_main
      (fun q => if q = "h2" then ScriptResult.err (parse_error_object "boom")
        else ScriptResult.ok)
      ScriptResult.ok (["h1"] ++ "h2" :: ["h3"]) ['a']).report.error =
      some (parse_error_object "boom") :=
  harness_failure_short_circuits _ ScriptResult.ok ["h1"] "h2" ["h3"] ['a']
    (parse_error_object "boom") (by decide) (by decide)

/-- C1 counterexample: a run with no harness files whose main source has
a parse error emits a report whose only top-level field is `error` —
`phase`, `type` and `details` are not top-level fields, they sit on the
nested error object. -/
theorem report_error_fields_not_top_level :
    "phase" ∉ (runner_main (fun _ => ScriptResult.ok)
      (ScriptResult.err (parse_error_object "Unexpected token")) [] []).report.keys ∧
    "type" ∉ (runner_main (fun _ => ScriptResult.ok)
      (ScriptResult.err (parse_error_object "Unexpected token")) [] []).report.keys ∧
    "details" ∉ (runner_main (fun _ => ScriptResult.ok)
      (ScriptResult.err (parse_error_object "Unexpected token")) [] []).report.keys ∧
    (runner_main (fun _ => ScriptResult.ok)
      (ScriptResult.err (parse_error_object "Unexpected token")) [] []).report.keys =
      ["error"] ∧
    (runner_main (fun _ => ScriptResult.ok)
      (ScriptResult.err (parse_error_object "Unexpected token")) [] []).report.error =
      some (parse_error_object "Unexpected token") := by
  decide

/-- C1 amended: the report's top-level fields are drawn from
`harness_error`, `harness_file`, `error` and `output`; the fields
`phase`, `type` and `details` are carried by the nested `error` object,
whose `phase` is absent (the I/O-failure variant), "parse", or
"runtime". -/
theorem report_top_level_shape (runScript : String → ScriptResult)
    (runMain : ScriptResult) (paths : List String) (pipeData : List Char)
    (hharness : ∀ p e, runScript p = ScriptResult.err e → ValidError e)
    (hmain : ∀ e, runMain = ScriptResult.err e → ValidError e) :
    (∀ k ∈ (runner_main runScript runMain paths pipeData).report.keys,
      k = "harness_error" ∨ k = "harness_file" ∨ k = "error" ∨ k = "output") ∧
    (∀ e, (runner_main runScript runMain paths pipeData).report.error = some e →
      ValidError e ∧
      (e.phase = none ∨ e.phase = some "parse" ∨ e.phase = some "runtime")) := by
  refine ⟨result_keys_subset _, ?_⟩
  intro e he
  have hvalid : ValidError e := by
    rcases hl : harness_loop runScript paths with ⟨ex, herr⟩
    rcases herr with _ | ⟨p, e'⟩
    · cases hm : runMain with
      | ok => simp [runner_main, hl, hm] at he
      | err e'' =>
        have : e'' = e := by simpa [runner_main, hl, hm] using he
        exact hmain e (this ▸ hm)
    · have hsrc : runScript p = ScriptResult.err e' :=
        harness_loop_err_source runScript paths p e' (by rw [hl])
      have : e' = e := by simpa [runner_main, hl] using he
      exact hharness p e (this ▸ hsrc)
  exact ⟨hvalid, validError_phase e hvalid⟩

/-- C1 amended witness: a run whose main source has a parse error. -/
theorem report_top_level_shape_witness :
    (∀ k ∈ (runner_main (fun _ => ScriptResult.ok)
        (ScriptResult.err (parse_error_object "u")) [] []).report.keys,
      k = "harness_error" ∨ k = "harness_file" ∨ k = "error" ∨ k = "output") ∧
    (∀ e, (runner_main (fun _ => ScriptResult.ok)
        (ScriptResult.err (parse_error_object "u")) [] []).report.error = some e →
      ValidError e ∧
      (e.phase = none ∨ e.phase = some "parse" ∨ e.phase = some "runtime")) :=
  report_top_level_shape (fun _ => ScriptResult.ok)
    (ScriptResult.err (parse_error_object "u")) [] []
    (fun _ _ h => nomatch h)
    (fun e h => by
      injection h with h'
      exact Or.inr (Or.inl ⟨"u", h'.symm⟩))

/-- C2 counterexample: a run during which nothing is written to the
captured stream emits a report with no `output` field at all, against
the claim that `output` is present on every report. -/
theorem report_output_absent_when_nothing_written :
    (runner_main (fun _ => ScriptResult.ok) ScriptResult.ok [] []).report.output =
      none ∧
    "output" ∉ (runner_main (fun _ => ScriptResult.ok)
      ScriptResult.ok [] []).report.keys := by
  decide

/-- C2 amended: the report carries an `output` field exactly when at
least one byte was written through the captured print sink during the
run; when present it holds the captured bytes, truncated to the capture
buffer's capacity. -/
theorem report_output_iff_bytes_captured (runScript : String → ScriptResult)
    (runMain : ScriptResult) (paths : List String) (pipeData : List Char) :
    ((runner_main runScript runMain paths pipeData).report.output = none ↔
      pipeData = []) ∧
    (pipeData ≠ [] →
      (runner_main runScript runMain paths pipeData).report.output =
        some (pipeData.take BUFFER_SIZE)) := by
  rw [runner_main_output]
  cases pipeData with
  | nil => simp [read_capture, output_field]
  | cons c cs =>
    constructor
    · simp [read_capture, output_field, BUFFER_SIZE]
    · intro _
      simp [read_capture, output_field, BUFFER_SIZE]

/-- C2 amended witness: one byte written, the report carries it. -/
theorem report_output_iff_bytes_captured_witness :
    ((runner_main (fun _ => ScriptResult.ok) ScriptResult.ok [] ['a']).report.output =
      none ↔ (['a'] : List Char) = []) ∧
    ((['a'] : List Char) ≠ [] →
      (runner_main (fun _ => ScriptResult.ok) ScriptResult.ok [] ['a']).report.output =
        some (['a'].take BUFFER_SIZE)) :=
  report_output_iff_bytes_captured (fun _ => ScriptResult.ok) ScriptResult.ok [] ['a']

/-- C9: the report's `output` field never holds more than 1024 bytes —
the capture buffer is 1 KiB and is drained by one read — and when more
than 1024 bytes were written, the report keeps exactly the first 1024
and silently drops the rest. -/
theorem report_output_capped_at_1024 (runScript : String → ScriptResult)
    (runMain : ScriptResult) (paths : List String) (pipeData : List Char) :
    (∀ s, (runner_main runScript runMain paths pipeData).report.output = some s →
      s.length ≤ 1024) ∧
    (1024 < pipeData.length →
      (runner_main runScript runMain paths pipeData).report.output =
        some (pipeData.take 1024) ∧ (pipeData.take 1024).length = 1024) := by
  rw [runner_main_output]
  cases pipeData with
  | nil =>
    constructor
    · intro s hs
      simp [read_capture, output_field] at hs
    · intro hlong
      simp at hlong
  | cons c cs =>
    have hsome : output_field (read_capture (c :: cs)) =
        some ((c :: cs).take 1024) := by
      simp [read_capture, output_field, BUFFER_SIZE]
    constructor
    · intro s hs
      rw [hsome] at hs
      have hts : (c :: cs).take 1024 = s := Option.some.inj hs
      rw [← hts, List.length_take]
      exact min_le_left _ _
    · intro hlong
      refine ⟨hsome, ?_⟩
      rw [List.length_take]
      omega

/-- C9 witness: 1025 bytes written, only the first 1024 survive. -/
theorem report_output_capped_at_1024_witness :
    (∀ s, (runner_main (fun _ => ScriptResult.ok) ScriptResult.ok []
        (List.replicate 1025 'a')).report.output = some s → s.length ≤ 1024) ∧
    (1024 < (List.replicate 1025 'a').length →
      (runner_main (fun _ => ScriptResult.ok) ScriptResult.ok []
        (List.replicate 1025 'a')).report.output =
          some ((List.replicate 1025 'a').take 1024) ∧
      ((List.replicate 1025 'a').take 1024).length = 1024) :=
  report_output_capped_at_1024 (fun _ => ScriptResult.ok) ScriptResult.ok []
    (List.replicate 1025 'a')

theorem capture_foldl_eq (calls : List String) (acc : List Char) :
    calls.foldl (fun a s => (GlobalObject_print a s).1) acc =
      acc ++ (calls.map (fun t => t.data ++ ['\n'])).flatten := by
  induction calls generalizing acc with
  | nil => simp
  | cons t rest ih =>
    rw [List.foldl_cons, ih]
    simp [GlobalObject_print]

/-- C10: a successful `print` call appends exactly the coerced string
followed by one newline to the captured output and returns the no-value
sentinel, so the pre-truncation captured output is the newline-terminated
concatenation of all successful print calls in order. -/
theorem print_appends_string_and_newline (calls : List String)
    (captured : List Char) (s : String) :
    GlobalObject_print captured s =
      (captured ++ (s.data ++ ['\n']), JSValue.undefined) ∧
    capture_after_prints (calls ++ [s]) =
      capture_after_prints calls ++ (s.data ++ ['\n']) ∧
    capture_after_prints calls = (calls.map (fun t => t.data ++ ['\n'])).flatten := by
  refine ⟨rfl, ?_, ?_⟩
  · unfold capture_after_prints
    rw [List.foldl_append]
    rfl
  · unfold capture_after_prints
    rw [capture_foldl_eq]
    rfl

/-- C6 witness: the amended statement at the coerced value -1. -/
theorem sleep_duration_characterization_witness :
    AgentObject_sleep (-1) =
      some ((((-1 : Int) * 1000) % 2 ^ 32).toNat, JSValue.undefined) ∧
    ((-1 : Int) = 0 → AgentObject_sleep (-1) = some (0, JSValue.undefined)) ∧
    ((0 : Int) ≤ -1 → (((-1 : Int) * 1000) % 2 ^ 32).toNat = ((-1 : Int) * 1000).toNat) ∧
    ((-1 : Int) < 0 → 2 ^ 31 ≤ (((-1 : Int) * 1000) % 2 ^ 32).toNat) :=
  sleep_duration_characterization (-1) (by decide) (by decide)

end Test262
